import Mathlib

/-!
# Verification of the swc-static boundary wrapper

Shallow embedding of `src/third_party/swc-static/src/lib.rs`, a C-ABI
wrapper around the external swc TypeScript compiler.  The wrapper's own
logic (input decoding, dialect selection, session setup, error funnelling,
output-slot discipline, buffer release) is embedded faithfully; the swc
parsing/transform/emission subsystem is an external multi-thousand-line
crate outside this repository, so it enters the embedding as an abstract
capability record (`Swc`), exactly the capability interface the design
notes prescribe (`parse`, `strip-types`, `emit`).
-/

namespace SwcStatic

/-- Bytes of a C string, as read by `CStr::from_ptr` up to (excluding) the
terminating NUL.  By construction such a byte list contains no `0` byte,
but nothing below needs to assume that. -/
abbrev Bytes := List Nat

/-- Rust `std::str::Utf8Error`: the length of the valid prefix and, when
known, the length of the maximal invalid subpart at that position
(`None` means the input ended inside a multi-byte sequence). -/
structure Utf8Error where
  validUpTo : Nat
  errorLen : Option Nat
deriving DecidableEq, Repr

/-- Display of `Utf8Error`, as in Rust's
`impl Display for Utf8Error` (core/src/str/error.rs). -/
def Utf8Error.display (e : Utf8Error) : String :=
  match e.errorLen with
  | some n => "invalid utf-8 sequence of " ++ toString n ++ " bytes from index "
      ++ toString e.validUpTo
  | none => "incomplete utf-8 byte sequence from index " ++ toString e.validUpTo

/-- Is a byte a UTF-8 continuation byte (`0x80..=0xBF`)? -/
def isCont (b : Nat) : Bool := 0x80 ≤ b && b ≤ 0xBF

/-- UTF-8 validation and decoding, following Rust's
`core::str::validations::run_utf8_validation` (the function behind
`str::from_utf8` / `CStr::to_str`): first-byte classification into widths
1–4, with the exact second-byte range restrictions that exclude overlong
encodings, surrogates and values above U+10FFFF, and Rust's
`valid_up_to` / `error_len` reporting. `i` is the index of the current
byte in the original input and `acc` holds the decoded characters in
reverse. -/
def utf8DecodeLoop : List Nat → Nat → List Char → Except Utf8Error (List Char)
  | [], _, acc => .ok acc.reverse
  | b :: rest, i, acc =>
    if b < 0x80 then
      -- ASCII
      utf8DecodeLoop rest (i + 1) (Char.ofNat b :: acc)
    else if 0xC2 ≤ b && b ≤ 0xDF then
      -- two-byte sequence
      match rest with
      | [] => .error ⟨i, none⟩
      | b2 :: rest2 =>
        if isCont b2 then
          let c := ((b &&& 0x1F) <<< 6) ||| (b2 &&& 0x3F)
          utf8DecodeLoop rest2 (i + 2) (Char.ofNat c :: acc)
        else .error ⟨i, some 1⟩
    else if 0xE0 ≤ b && b ≤ 0xEF then
      -- three-byte sequence
      match rest with
      | [] => .error ⟨i, none⟩
      | b2 :: rest2 =>
        if (b = 0xE0 && 0xA0 ≤ b2 && b2 ≤ 0xBF)
            || (0xE1 ≤ b && b ≤ 0xEC && isCont b2)
            || (b = 0xED && 0x80 ≤ b2 && b2 ≤ 0x9F)
            || (0xEE ≤ b && isCont b2) then
          match rest2 with
          | [] => .error ⟨i, none⟩
          | b3 :: rest3 =>
            if isCont b3 then
              let c := ((b &&& 0x0F) <<< 12) ||| ((b2 &&& 0x3F) <<< 6) ||| (b3 &&& 0x3F)
              utf8DecodeLoop rest3 (i + 3) (Char.ofNat c :: acc)
            else .error ⟨i, some 2⟩
        else .error ⟨i, some 1⟩
    else if 0xF0 ≤ b && b ≤ 0xF4 then
      -- four-byte sequence
      match rest with
      | [] => .error ⟨i, none⟩
      | b2 :: rest2 =>
        if (b = 0xF0 && 0x90 ≤ b2 && b2 ≤ 0xBF)
            || (0xF1 ≤ b && b ≤ 0xF3 && isCont b2)
            || (b = 0xF4 && 0x80 ≤ b2 && b2 ≤ 0x8F) then
          match rest2 with
          | [] => .error ⟨i, none⟩
          | b3 :: rest3 =>
            if isCont b3 then
              match rest3 with
              | [] => .error ⟨i, none⟩
              | b4 :: rest4 =>
                if isCont b4 then
                  let c := ((b &&& 0x07) <<< 18) ||| ((b2 &&& 0x3F) <<< 12)
                      ||| ((b3 &&& 0x3F) <<< 6) ||| (b4 &&& 0x3F)
                  utf8DecodeLoop rest4 (i + 4) (Char.ofNat c :: acc)
                else .error ⟨i, some 3⟩
            else .error ⟨i, some 2⟩
        else .error ⟨i, some 1⟩
    else
      -- 0x80..=0xC1 (stray continuation / overlong lead) or 0xF5..=0xFF
      .error ⟨i, some 1⟩
/-- `str::from_utf8` / `String::from_utf8`: decode a byte list to a string
or report the first ill-formed position. -/
def utf8Decode (bs : Bytes) : Except Utf8Error String :=
  (utf8DecodeLoop bs 0 []).map String.mk

/-- UTF-8 encoding of one Unicode scalar value. -/
def utf8EncodeChar (c : Nat) : Bytes :=
  if c < 0x80 then [c]
  else if c < 0x800 then
    [0xC0 ||| (c >>> 6), 0x80 ||| (c &&& 0x3F)]
  else if c < 0x10000 then
    [0xE0 ||| (c >>> 12), 0x80 ||| ((c >>> 6) &&& 0x3F), 0x80 ||| (c &&& 0x3F)]
  else
    [0xF0 ||| (c >>> 18), 0x80 ||| ((c >>> 12) &&& 0x3F),
     0x80 ||| ((c >>> 6) &&& 0x3F), 0x80 ||| (c &&& 0x3F)]

/-- The UTF-8 bytes of a Rust `String` (Rust strings are UTF-8 byte
vectors; this is `String::into_bytes`). -/
def utf8Encode (s : String) : Bytes :=
  s.data.flatMap (fun c => utf8EncodeChar c.toNat)

/-- A hygiene mark (`swc_core::common::Mark`): an index into the
mark table held by the active `Globals`. -/
abbrev Mark := Nat

/-- `swc_core::common::Globals`: the compiler session state that backs
`Mark::new()`.  Only the part the wrapper exercises is modelled: the
mark counter (a fresh `Globals` starts with only the root mark, so the
counter starts at 0). -/
structure Globals where
  markCounter : Nat
deriving DecidableEq, Repr

/-- `Globals::new()`. -/
def Globals.new : Globals := { markCounter := 0 }

/-- `Mark::new()` under the currently installed `Globals`: allocates the
next fresh mark and advances the counter. -/
def Mark.new (g : Globals) : Mark × Globals :=
  (g.markCounter + 1, { markCounter := g.markCounter + 1 })

/-- The parser configuration of `Syntax::Typescript(TsConfig { .. })`,
restricted to the fields the wrapper sets.  `TsConfig::default()` has
both flags false. -/
structure TsConfig where
  tsx : Bool
  decorators : Bool
deriving DecidableEq, Repr

/-- `TsConfig::default()`. -/
def TsConfig.default : TsConfig := { tsx := false, decorators := false }

/-- The parser dialect (`swc_core::ecma::parser::Syntax`).  The wrapper
only ever constructs the TypeScript variant. -/
inductive Dialect where
  | typescript : TsConfig → Dialect
deriving DecidableEq, Repr

/-- Rust `str::ends_with(pat)` for a string pattern: does the UTF-8 byte
representation of `pat` occur as a suffix of the UTF-8 byte
representation of `s`? -/
def strEndsWith (s pat : String) : Bool :=
  (utf8Encode pat).isSuffixOf (utf8Encode s)

/-- Dialect selection as performed in `transpile` (lib.rs:94–98):
`let mut s = Syntax::Typescript(Default::default());
 if let Syntax::Typescript(config) = &mut s {
   config.tsx = filename.ends_with(".tsx"); config.decorators = true; }` -/
def dialectFor (filename : String) : Dialect :=
  match Dialect.typescript TsConfig.default with
  | .typescript config =>
      .typescript { config with tsx := strEndsWith filename ".tsx", decorators := true }

/-- The per-call source map (`Lrc<SourceMap>`): the files registered in
this call's position table, as (name, text) pairs. -/
abbrev SourceMap := List (String × String)

/-- `SourceMap::default()` then `cm.new_source_file(FileName::Real(filename), source)`:
the source map used by a call of `transpile` holds exactly that one file. -/
def SourceMap.forCall (filename source : String) : SourceMap :=
  [(filename, source)]

/-- The external swc capability the wrapper drives (spec §4.2/§9: parsing,
type-erasure and emission are a provided, external subsystem).  `P` is the
AST type (`Program`), `D` the parse-error type carried by
`parser.parse_program()`'s `Err`.
* `parseProgram d fm`: the lexer+parser pipeline on source unit `fm`
  under dialect `d` (`Parser::new_from(Lexer::new(syntax, .., fm, ..)).parse_program()`);
* `renderDiag cm d`: the text the diagnostic `Handler` (backed by an
  `EmitterWriter` over stderr with this call's source map) writes when
  `e.into_diagnostic(&handler).emit()` runs;
* `strip m1 m2 p`: `program.apply(&mut strip(m1, m2))`, the type-erasure
  transform under two hygiene marks;
* `emitProgram p`: `Emitter::emit_program` into a byte buffer through a
  `JsWriter` with line ending `"\n"`, or the io error message of the
  failure that `.context("Failed to emit JS")` wraps. -/
structure Swc (P D : Type) where
  parseProgram : Dialect → String × String → Except D P
  renderDiag : SourceMap → D → String
  strip : Mark → Mark → P → P
  emitProgram : P → Except String Bytes

/-- Outcome of one `transpile` call: the `Result<String>` value and the
lines this call wrote to the process error stream (stderr), which the
boundary never returns to the caller. -/
structure TranspileOutcome where
  result : Except String String
  stderr : List String
deriving Repr

/-- The body that `transpile` runs inside `GLOBALS.set(&globals, ..)`
(lib.rs:78–134), threading the installed `Globals` explicitly:
build the per-call source map and handler, select the dialect from the
filename, parse (on failure: emit the diagnostic to stderr and return the
aggregated error), generate two fresh marks, strip types, emit, and decode
the output buffer as UTF-8. -/
def transpileBody (swc : Swc P D) (source filename : String) (g : Globals) :
    TranspileOutcome × Globals :=
  let cm : SourceMap := SourceMap.forCall filename source
  let dialect := dialectFor filename
  match swc.parseProgram dialect (filename, source) with
  | .error e =>
      -- e.into_diagnostic(&handler).emit(); anyhow!("Failed to parse TypeScript")
      (⟨.error "Failed to parse TypeScript", [swc.renderDiag cm e]⟩, g)
  | .ok program =>
      -- program.apply(&mut strip(Mark::new(), Mark::new()))
      let (m1, g) := Mark.new g
      let (m2, g) := Mark.new g
      let program := swc.strip m1 m2 program
      match swc.emitProgram program with
      | .error ioMsg =>
          -- emitter.emit_program(&program).context("Failed to emit JS")?
          (⟨.error ("Failed to emit JS: " ++ ioMsg), []⟩, g)
      | .ok buf =>
          -- String::from_utf8(buf).context("Output is not valid UTF-8")?
          match utf8Decode buf with
          | .error e =>
              (⟨.error ("Output is not valid UTF-8: " ++ e.display), []⟩, g)
          | .ok js => (⟨.ok js, []⟩, g)

/-- `fn transpile(source, filename) -> Result<String>` (lib.rs:76–135).
`ambient` is whatever `GLOBALS` state surrounds the call on this thread;
the function creates a fresh `Globals` (`let globals = Globals::new()`),
installs it for the duration of the body (`GLOBALS.set(&globals, ..)`),
and leaves the ambient state untouched. -/
def transpile (swc : Swc P D) (ambient : Globals) (source filename : String) :
    TranspileOutcome × Globals :=
  let globals := Globals.new
  ((transpileBody swc source filename globals).1, ambient)

/-- The three `*mut *mut c_char` output slots of `swc_transpile_ts` as
they stand on return.  `none` models the null pointer, `some bs` a
caller-owned `CString` buffer holding bytes `bs` (before the terminating
NUL).  Every return path of the function writes all three slots. -/
structure OutSlots where
  js : Option Bytes
  sourcemap : Option Bytes
  error : Option Bytes
deriving DecidableEq, Repr

/-- `CString::new(s).unwrap_or_default()`: a `String`'s bytes become a
`CString` unless they contain an interior NUL, in which case
`CString::new` fails and `unwrap_or_default` substitutes the empty
`CString::default()`. -/
def cstringNewOrDefault (s : String) : Bytes :=
  let bytes := utf8Encode s
  if bytes.contains 0 then [] else bytes

/-- The `set_error` closure (lib.rs:26–31): store the message in the
error slot (`CString::new(err_msg).unwrap_or_default().into_raw()`) and
null out the js and sourcemap slots. -/
def set_error (err_msg : String) : OutSlots :=
  { error := some (cstringNewOrDefault err_msg)
    js := none
    sourcemap := none }

/-- `swc_transpile_ts` (lib.rs:16–67), the C-ABI entry point.  Inputs are
the three `*const c_char` arguments (`none` = null pointer, `some bs` =
the pointed-to C string's bytes); `ambient` is the thread's surrounding
`GLOBALS` state.  Returns the `c_int` status and the final contents of
the three output slots.  Paths, in source order: null check on `source` /
`filename`; `CStr::to_str` UTF-8 decoding of `source`, then `filename`;
then `transpile`, whose `Ok(js)` is encoded into the js slot
(`CString::new(js).unwrap_or_default()`) with sourcemap and error nulled,
and whose `Err(e)` goes through `set_error(format!("{:#}", e))`.
`source_map_mode` is accepted and never read. -/
def swc_transpile_ts (swc : Swc P D) (ambient : Globals)
    (source filename _source_map_mode : Option Bytes) : Int × OutSlots :=
  if source.isNone || filename.isNone then
    (1, set_error "Source or filename is null")
  else
    match utf8Decode (source.getD []) with
    | .error e => (1, set_error ("Invalid source encoding: " ++ e.display))
    | .ok source_str =>
      match utf8Decode (filename.getD []) with
      | .error e => (1, set_error ("Invalid filename encoding: " ++ e.display))
      | .ok filename_str =>
        match ((transpile swc ambient source_str filename_str).1).result with
        | .ok js =>
            (0, { js := some (cstringNewOrDefault js)
                  sourcemap := none
                  error := none })
        | .error e => (1, set_error e)

/-- The set of live caller-owned buffers handed out by this library and
not yet released: the allocation state that `CString::into_raw` /
`CString::from_raw` manipulate.  Pointers are abstract ids. -/
structure Heap where
  live : List Nat
deriving DecidableEq, Repr

/-- Result of a release: either the updated allocation state, or
undefined behavior (Rust: `CString::from_raw` on a pointer that was not
obtained from `into_raw`, or that was already retaken, violates its
safety contract — a double free). -/
inductive FreeResult where
  | ok : Heap → FreeResult
  | undefinedBehavior : FreeResult
deriving DecidableEq, Repr

/-- `swc_free` (lib.rs:69–74): `if !ptr.is_null() { let _ = CString::from_raw(ptr); }`.
A null pointer is skipped; a live pointer is retaken and dropped (freed);
a non-null pointer that is not a live allocation hits `CString::from_raw`'s
safety contract — undefined behavior, not a guarded no-op. -/
def swc_free (h : Heap) : Option Nat → FreeResult
  | none => .ok h
  | some p => if p ∈ h.live then .ok { live := h.live.erase p } else .undefinedBehavior

/-- Sequential composition of boundary-free `transpile` calls on one
thread, threading the thread's ambient `GLOBALS` state through the whole
batch: the state one call leaves behind is the state the next call runs
in.  This is the channel through which calls could observe each other's
session state, if any call leaked its session into it. -/
def runCalls (swc : Swc P D) (g : Globals) :
    List (String × String) → List TranspileOutcome × Globals
  | [] => ([], g)
  | (source, filename) :: rest =>
      let (r, g1) := transpile swc g source filename
      let (rs, g2) := runCalls swc g1 rest
      (r :: rs, g2)

/-- A concrete capability instance over trivial AST and diagnostic types:
parsing always succeeds and the emitted buffer is empty.  Used to exercise
the theorems on closed inputs. -/
def trivialSwc : Swc Unit Unit where
  parseProgram := fun _ _ => .ok ()
  renderDiag := fun _ _ => ""
  strip := fun _ _ p => p
  emitProgram := fun _ => .ok []

/-- A concrete capability instance whose parser always fails, rendering a
fixed diagnostic text. -/
def failSwc : Swc Unit Unit where
  parseProgram := fun _ _ => .error ()
  renderDiag := fun _ _ => "error: Expression expected at input.ts:1:1"
  strip := fun _ _ p => p
  emitProgram := fun _ => .ok []

/-- A concrete capability instance whose emitted JavaScript consists of a
single NUL byte. -/
def nulJsSwc : Swc Unit Unit where
  parseProgram := fun _ _ => .ok ()
  renderDiag := fun _ _ => ""
  strip := fun _ _ p => p
  emitProgram := fun _ => .ok [0]

/-- A concrete capability instance whose emitter fails with an io error
message containing an interior NUL byte. -/
def nulErrSwc : Swc Unit Unit where
  parseProgram := fun _ _ => .ok ()
  renderDiag := fun _ _ => ""
  strip := fun _ _ p => p
  emitProgram := fun _ => .error "io\x00err"

/-! ## Theorems -/

/-- Every return path of `swc_transpile_ts` has one of two shapes: the
success shape (status 0, js slot set, sourcemap and error slots null), or
a `set_error` failure (status 1). -/
theorem swc_transpile_ts_shape {P D : Type} (swc : Swc P D) (g : Globals)
    (source filename mode : Option Bytes) :
    (∃ js, swc_transpile_ts swc g source filename mode
        = (0, { js := some (cstringNewOrDefault js), sourcemap := none, error := none }))
    ∨ (∃ msg, swc_transpile_ts swc g source filename mode = (1, set_error msg)) := by
  unfold swc_transpile_ts
  split
  · exact .inr ⟨_, rfl⟩
  · split
    · exact .inr ⟨_, rfl⟩
    · split
      · exact .inr ⟨_, rfl⟩
      · split
        · exact .inl ⟨_, rfl⟩
        · exact .inr ⟨_, rfl⟩

/-- C1: on every call to `swc_transpile_ts`, exactly one of the error and
js output slots is non-absent on return, the returned status is 0 exactly
when js is non-absent and 1 exactly when error is non-absent, and on every
failure path the slots not used for the error message (js, sourcemap) are
set to the null sentinel. -/
theorem C1_exactly_one_output {P D : Type} (swc : Swc P D) (g : Globals)
    (source filename mode : Option Bytes) :
    ((swc_transpile_ts swc g source filename mode).2.js.isSome
        ↔ (swc_transpile_ts swc g source filename mode).2.error.isNone)
    ∧ ((swc_transpile_ts swc g source filename mode).1 = 0
        ↔ (swc_transpile_ts swc g source filename mode).2.js.isSome)
    ∧ ((swc_transpile_ts swc g source filename mode).1 = 1
        ↔ (swc_transpile_ts swc g source filename mode).2.error.isSome)
    ∧ ((swc_transpile_ts swc g source filename mode).2.error.isSome
        → (swc_transpile_ts swc g source filename mode).2.js = none
          ∧ (swc_transpile_ts swc g source filename mode).2.sourcemap = none) := by
  rcases swc_transpile_ts_shape swc g source filename mode with ⟨js, h⟩ | ⟨msg, h⟩ <;>
    simp [h, set_error]

/-- Closed instance of `C1_exactly_one_output`. -/
theorem C1_exactly_one_output_witness :
    ((swc_transpile_ts trivialSwc Globals.new (some [120]) (some [120]) none).2.js.isSome
        ↔ (swc_transpile_ts trivialSwc Globals.new (some [120]) (some [120]) none).2.error.isNone)
    ∧ ((swc_transpile_ts trivialSwc Globals.new (some [120]) (some [120]) none).1 = 0
        ↔ (swc_transpile_ts trivialSwc Globals.new (some [120]) (some [120]) none).2.js.isSome)
    ∧ ((swc_transpile_ts trivialSwc Globals.new (some [120]) (some [120]) none).1 = 1
        ↔ (swc_transpile_ts trivialSwc Globals.new (some [120]) (some [120]) none).2.error.isSome)
    ∧ ((swc_transpile_ts trivialSwc Globals.new (some [120]) (some [120]) none).2.error.isSome
        → (swc_transpile_ts trivialSwc Globals.new (some [120]) (some [120]) none).2.js = none
          ∧ (swc_transpile_ts trivialSwc Globals.new (some [120]) (some [120]) none).2.sourcemap
              = none) :=
  C1_exactly_one_output trivialSwc Globals.new (some [120]) (some [120]) none

/-- C4: on both the success and the failure path, the sourcemap output
slot is set to the absent (null) sentinel, and the entire result of
`swc_transpile_ts` is independent of the value passed as
`source_map_mode`. -/
theorem C4_sourcemap_always_absent {P D : Type} (swc : Swc P D) (g : Globals)
    (source filename mode mode2 : Option Bytes) :
    (swc_transpile_ts swc g source filename mode).2.sourcemap = none
    ∧ swc_transpile_ts swc g source filename mode
        = swc_transpile_ts swc g source filename mode2 := by
  refine ⟨?_, rfl⟩
  rcases swc_transpile_ts_shape swc g source filename mode with ⟨js, h⟩ | ⟨msg, h⟩ <;>
    simp [h, set_error]

/-- The fixed null-input message has no interior NUL byte, so
`CString::new` on it succeeds and keeps its bytes verbatim. -/
theorem nullMsg_cstring :
    cstringNewOrDefault "Source or filename is null"
      = utf8Encode "Source or filename is null" := by decide

/-- C2: whenever the required `source` or `filename` input is absent
(null) or not decodable as UTF-8, `swc_transpile_ts` returns the failure
status with the error slot set, the result is independent of the swc
capability, the session state and the mode argument (no parsing is ever
attempted), and in the absent-input case the message is exactly the fixed
string "Source or filename is null". -/
theorem C2_invalid_input {P D : Type} (swc swc2 : Swc P D) (g g2 : Globals)
    (source filename mode mode2 : Option Bytes)
    (h : source = none ∨ filename = none
        ∨ (∃ bs e, source = some bs ∧ utf8Decode bs = .error e)
        ∨ (∃ bs e, filename = some bs ∧ utf8Decode bs = .error e)) :
    (swc_transpile_ts swc g source filename mode).1 = 1
    ∧ (swc_transpile_ts swc g source filename mode).2.error.isSome
    ∧ swc_transpile_ts swc g source filename mode
        = swc_transpile_ts swc2 g2 source filename mode2
    ∧ ((source = none ∨ filename = none) →
        (swc_transpile_ts swc g source filename mode).2.error
          = some (utf8Encode "Source or filename is null")) := by
  by_cases hnull : source.isNone || filename.isNone
  · simp [swc_transpile_ts, hnull, set_error, nullMsg_cstring]
  · rcases source with _ | sbs
    · simp at hnull
    rcases filename with _ | fbs
    · simp at hnull
    have hnn : (some sbs).isNone || (some fbs).isNone = false := by simp
    rcases h with h | h | ⟨bs, e, hbs, hde⟩ | ⟨bs, e, hbs, hde⟩
    · exact absurd h (by simp)
    · exact absurd h (by simp)
    · obtain rfl : bs = sbs := by injection hbs with h; exact h.symm
      simp [swc_transpile_ts, hde, set_error]
    · obtain rfl : bs = fbs := by injection hbs with h; exact h.symm
      rcases hs : utf8Decode sbs with es | ss
      · simp [swc_transpile_ts, hs, set_error]
      · simp [swc_transpile_ts, hs, hde, set_error]

/-- Closed instance of `C2_invalid_input`: the byte `0xFF` is not valid
UTF-8, so a call with that source fails identically under two different
capabilities, session states and mode arguments; a second application
covers the null-input case with its fixed message. -/
theorem C2_invalid_input_witness :
    ((swc_transpile_ts trivialSwc Globals.new (some [255]) (some [120]) none).1 = 1
      ∧ (swc_transpile_ts trivialSwc Globals.new (some [255]) (some [120]) none).2.error.isSome
      ∧ swc_transpile_ts trivialSwc Globals.new (some [255]) (some [120]) none
          = swc_transpile_ts failSwc { markCounter := 7 } (some [255]) (some [120]) (some [1])
      ∧ (((some [255] : Option Bytes) = none ∨ (some [120] : Option Bytes) = none) →
          (swc_transpile_ts trivialSwc Globals.new (some [255]) (some [120]) none).2.error
            = some (utf8Encode "Source or filename is null")))
    ∧ (swc_transpile_ts trivialSwc Globals.new none (some [120]) none).2.error
        = some (utf8Encode "Source or filename is null") :=
  ⟨C2_invalid_input trivialSwc failSwc Globals.new { markCounter := 7 }
      (some [255]) (some [120]) none (some [1])
      (Or.inr (Or.inr (Or.inl ⟨[255], ⟨0, some 1⟩, rfl, rfl⟩))),
    (C2_invalid_input trivialSwc trivialSwc Globals.new Globals.new
      none (some [120]) none none (Or.inl rfl)).2.2.2 (Or.inl rfl)⟩

/-- C3: the parser dialect is selected from the filename's suffix — a
filename ending in ".tsx" yields the TypeScript dialect with the
markup-aware (tsx) grammar enabled, any other filename yields the plain
TypeScript grammar, and decorator syntax is enabled in both cases.
Moreover the parsing capability is consulted only at `dialectFor filename`:
two capabilities that agree there (and on the later stages) produce
identical transpile outcomes. -/
theorem C3_dialect_selection (filename : String) :
    (strEndsWith filename ".tsx" = true →
      dialectFor filename = .typescript { tsx := true, decorators := true })
    ∧ (strEndsWith filename ".tsx" = false →
      dialectFor filename = .typescript { tsx := false, decorators := true })
    ∧ (∀ (P D : Type) (swc swc2 : Swc P D) (g g2 : Globals) (source : String),
        swc.parseProgram (dialectFor filename) (filename, source)
            = swc2.parseProgram (dialectFor filename) (filename, source) →
        swc.renderDiag = swc2.renderDiag →
        swc.strip = swc2.strip →
        swc.emitProgram = swc2.emitProgram →
        (transpile swc g source filename).1 = (transpile swc2 g2 source filename).1) := by
  refine ⟨fun h => by simp [dialectFor, h], fun h => by simp [dialectFor, h],
    fun P D swc swc2 g g2 source hp hrd hstrip hemit => ?_⟩
  simp only [transpile, transpileBody, hp, hrd, hstrip, hemit]

/-- Closed instance of `C3_dialect_selection` at a markup and a
non-markup filename. -/
theorem C3_dialect_selection_witness :
    dialectFor "a.tsx" = .typescript { tsx := true, decorators := true }
    ∧ dialectFor "a.ts" = .typescript { tsx := false, decorators := true }
    ∧ (transpile trivialSwc Globals.new "let x" "a.ts").1
        = (transpile trivialSwc { markCounter := 3 } "let x" "a.ts").1 :=
  ⟨(C3_dialect_selection "a.tsx").1 (by decide),
    (C3_dialect_selection "a.ts").2.1 (by decide),
    (C3_dialect_selection "a.ts").2.2 Unit Unit trivialSwc trivialSwc
      Globals.new { markCounter := 3 } "let x" rfl rfl rfl rfl⟩

/-- The fixed parse-failure message has no interior NUL byte, so
`CString::new` on it succeeds and keeps its bytes verbatim. -/
theorem parseMsg_cstring :
    cstringNewOrDefault "Failed to parse TypeScript"
      = utf8Encode "Failed to parse TypeScript" := by decide

/-- C5: whenever the parser cannot produce a program on the (decoded)
source, `swc_transpile_ts` returns the failure status with a non-empty
error message and both the js and sourcemap slots null — no partial
JavaScript output is returned. -/
theorem C5_parse_failure_no_partial_output {P D : Type} (swc : Swc P D) (g : Globals)
    (mode : Option Bytes) (sbs fbs : Bytes) (source_str filename_str : String) (d : D)
    (hds : utf8Decode sbs = .ok source_str) (hdf : utf8Decode fbs = .ok filename_str)
    (hp : swc.parseProgram (dialectFor filename_str) (filename_str, source_str) = .error d) :
    swc_transpile_ts swc g (some sbs) (some fbs) mode
      = (1, { js := none, sourcemap := none,
              error := some (utf8Encode "Failed to parse TypeScript") })
    ∧ utf8Encode "Failed to parse TypeScript" ≠ [] := by
  refine ⟨?_, by decide⟩
  simp [swc_transpile_ts, hds, hdf, transpile, transpileBody, hp, set_error, parseMsg_cstring]

/-- Closed instance of `C5_parse_failure_no_partial_output`: a capability
whose parser rejects its input makes the boundary return status 1, the
fixed message, and null js and sourcemap slots. -/
theorem C5_parse_failure_no_partial_output_witness :
    swc_transpile_ts failSwc Globals.new (some [120]) (some [97]) none
      = (1, { js := none, sourcemap := none,
              error := some (utf8Encode "Failed to parse TypeScript") })
    ∧ utf8Encode "Failed to parse TypeScript" ≠ [] :=
  C5_parse_failure_no_partial_output failSwc Globals.new none [120] [97] "x" "a" () rfl rfl rfl

/-- C7: the transpile pipeline is deterministic — because each call
installs a freshly created `Globals` for its whole body (so the two
hygiene marks are freshly generated from the same initial session state),
two runs on the same source text and filename produce the same outcome,
whatever ambient session state surrounds either run: the same JavaScript
on success, the same error on failure, and the same stderr diagnostics. -/
theorem C7_transpile_deterministic {P D : Type} (swc : Swc P D) (g1 g2 : Globals)
    (source filename : String) :
    (transpile swc g1 source filename).1 = (transpile swc g2 source filename).1 := rfl

/-- C8: each `transpile` call runs in its own fresh session (new
`Globals`, new source map, two marks fresh from that `Globals`), and the
ambient thread state is left untouched, so a batch of calls threaded
through shared ambient state yields, for every call, exactly the result
of its isolated run, with the ambient state returned unchanged — no
cross-contamination between calls. -/
theorem C8_session_isolation {P D : Type} (swc : Swc P D) (g : Globals)
    (calls : List (String × String)) :
    runCalls swc g calls
      = (calls.map (fun c => (transpile swc Globals.new c.1 c.2).1), g) := by
  induction calls generalizing g with
  | nil => rfl
  | cons c rest ih =>
      cases c
      simp [runCalls, transpile, ih]

/-- C9: when the string crossing the boundary contains an interior NUL
byte — the successful JavaScript output or the error message alike — the
call does not fail at the encoding step: `CString::new`'s failure is
absorbed by `unwrap_or_default` and the caller receives an empty string
in that slot (a success can return status 0 with an empty js string, a
failure an empty error message). -/
theorem C9_interior_nul_empty_string {P D : Type} (swc : Swc P D) (g : Globals)
    (mode : Option Bytes) (sbs fbs : Bytes) (source_str filename_str : String)
    (hds : utf8Decode sbs = .ok source_str) (hdf : utf8Decode fbs = .ok filename_str) :
    (∀ js, (transpile swc g source_str filename_str).1.result = .ok js →
        (utf8Encode js).contains 0 = true →
        swc_transpile_ts swc g (some sbs) (some fbs) mode
          = (0, { js := some [], sourcemap := none, error := none }))
    ∧ (∀ msg, (transpile swc g source_str filename_str).1.result = .error msg →
        (utf8Encode msg).contains 0 = true →
        swc_transpile_ts swc g (some sbs) (some fbs) mode
          = (1, { js := none, sourcemap := none, error := some [] })) := by
  constructor
  · intro js hjs hnul
    have h0 : (0 : Nat) ∈ utf8Encode js := by simpa using hnul
    simp [swc_transpile_ts, hds, hdf, hjs, cstringNewOrDefault, h0]
  · intro msg hmsg hnul
    have h0 : (0 : Nat) ∈ utf8Encode msg := by simpa using hnul
    simp [swc_transpile_ts, hds, hdf, hmsg, set_error, cstringNewOrDefault, h0]

/-- Closed instance of `C9_interior_nul_empty_string`: a capability whose
emitted buffer is a single NUL byte yields status 0 with an empty js
string, and one whose emitter fails with a NUL-containing io message
yields status 1 with an empty error string. -/
theorem C9_interior_nul_empty_string_witness :
    swc_transpile_ts nulJsSwc Globals.new (some [120]) (some [97]) none
      = (0, { js := some [], sourcemap := none, error := none })
    ∧ swc_transpile_ts nulErrSwc Globals.new (some [120]) (some [97]) none
      = (1, { js := none, sourcemap := none, error := some [] }) :=
  ⟨(C9_interior_nul_empty_string nulJsSwc Globals.new none [120] [97] "x" "a" rfl rfl).1
      "\x00" rfl rfl,
    (C9_interior_nul_empty_string nulErrSwc Globals.new none [120] [97] "x" "a" rfl rfl).2
      "Failed to emit JS: io\x00err" rfl rfl⟩

/-- C10: on every parse failure, the error value `transpile` returns is
exactly the fixed string "Failed to parse TypeScript", while the rendered
parser diagnostic (with its positions, produced by the handler over this
call's source map) goes only to the process error stream. -/
theorem C10_diagnostics_stderr_only {P D : Type} (swc : Swc P D) (g : Globals)
    (source filename : String) (d : D)
    (hp : swc.parseProgram (dialectFor filename) (filename, source) = .error d) :
    (transpile swc g source filename).1.result = .error "Failed to parse TypeScript"
    ∧ (transpile swc g source filename).1.stderr
        = [swc.renderDiag (SourceMap.forCall filename source) d] := by
  constructor <;> simp [transpile, transpileBody, hp]

/-- Closed instance of `C10_diagnostics_stderr_only`. -/
theorem C10_diagnostics_stderr_only_witness :
    (transpile failSwc Globals.new "x" "a.ts").1.result
        = .error "Failed to parse TypeScript"
    ∧ (transpile failSwc Globals.new "x" "a.ts").1.stderr
        = [failSwc.renderDiag (SourceMap.forCall "a.ts" "x") ()] :=
  C10_diagnostics_stderr_only failSwc Globals.new "x" "a.ts" () rfl

/-- C6, counterexample to the claim as stated: releasing a buffer and
then calling `swc_free` again on the same (now stale, still non-null)
pointer is not a safe no-op — `CString::from_raw` is reached a second
time for an allocation this library no longer owns, a double free. -/
theorem C6_free_stale_counterexample :
    swc_free { live := [1] } (some 1) = .ok { live := [] }
    ∧ swc_free { live := [] } (some 1) = .undefinedBehavior := by decide

/-- C6, amended: calling `swc_free` on an absent (null) value is a safe
no-op, and on a live value returned by a call it releases that buffer
exactly once (afterwards the buffer is no longer live); calling it on an
already-released non-null value is not guarded against. -/
theorem C6_free_amended (h : Heap) (p : Nat) (hp : p ∈ h.live) (hnd : h.live.Nodup) :
    swc_free h none = .ok h
    ∧ swc_free h (some p) = .ok { live := h.live.erase p }
    ∧ p ∉ h.live.erase p := by
  refine ⟨rfl, by simp [swc_free, hp], fun hmem => ?_⟩
  exact ((hnd.mem_erase_iff).1 hmem).1 rfl

/-- Closed instance of `C6_free_amended`. -/
theorem C6_free_amended_witness :
    swc_free { live := [1, 2] } none = .ok { live := [1, 2] }
    ∧ swc_free { live := [1, 2] } (some 1) = .ok { live := [1, 2].erase 1 }
    ∧ 1 ∉ ([1, 2] : List Nat).erase 1 :=
  C6_free_amended { live := [1, 2] } 1 (by decide) (by decide)

end SwcStatic
